import Mathlib

/-!
Verification of the ClarityDesk research platform against its specification.

The embedding models, faithfully to the TypeScript source:
- the shared schema types of `shared/research-schema.ts` (`ResearchSource`,
  `ResearchMetadata`, `ResearchResult`, `ResearchStatus`);
- the Express route handler for `POST /api/research` (`registerRoutes`):
  query validation, option defaulting via the JavaScript `||` operator,
  the subprocess `close` handler, and the kill-on-timeout timer;
- the client-side `handleSubmit` of `client/src/pages/home.tsx`:
  the `trim()` guard and the sequence of `ResearchStatus` values it sets.

JavaScript numbers are modelled as rationals, and JavaScript values that can
flow into the request body as an inductive `JSValue` with the source
language's truthiness.
-/

namespace ClarityDesk

/-- A JavaScript value as it can appear in a parsed JSON request body field:
`undefined` stands for an absent property. -/
inductive JSValue where
  | undefined : JSValue
  | null : JSValue
  | boolean : Bool → JSValue
  | number : ℚ → JSValue
  | string : String → JSValue
  deriving DecidableEq

/-- JavaScript truthiness: `undefined`, `null`, `false`, `0` and the empty
string are falsy, everything else is truthy. -/
def truthy : JSValue → Bool
  | .undefined => false
  | .null => false
  | .boolean b => b
  | .number n => decide (n ≠ 0)
  | .string s => decide (s ≠ "")

/-- The test `typeof query === 'string'` from the route handler. -/
def isStringVal : JSValue → Bool
  | .string _ => true
  | _ => false

/-- Underlying string of a string value (only used after `isStringVal`). -/
def stringVal : JSValue → String
  | .string s => s
  | _ => ""

/-- The JavaScript `a || b` defaulting idiom used in the route handler. -/
def jsOr (v d : JSValue) : JSValue :=
  if truthy v then v else d

/-! ## Shared schema (`shared/research-schema.ts`) -/

/-- The status tag union of `ResearchStatus` in the shared schema. -/
inductive StatusTag where
  | starting | expanding | searching | scraping | ranking | synthesizing
  | complete | error
  deriving DecidableEq

/-- All eight values of the `ResearchStatus.status` union type, in schema
order. -/
def statusTags : List StatusTag :=
  [.starting, .expanding, .searching, .scraping, .ranking, .synthesizing,
   .complete, .error]

/-- `interface ResearchStatus` of the shared schema: a status tag, a human
message, and an optional progress number. -/
structure ResearchStatus where
  status : StatusTag
  message : String
  progress : Option ℚ
  deriving DecidableEq

/-- `interface ResearchSource` of the shared schema, fields in source
order (`last_updated` is the one optional field). -/
structure ResearchSource where
  title : String
  url : String
  relevance_score : ℚ
  key_findings : String
  domain : String
  last_updated : Option String
  content_length : ℚ
  quality_score : ℚ
  deriving DecidableEq

/-- `interface ResearchMetadata` of the shared schema, fields in source
order. -/
structure ResearchMetadata where
  sources_searched : ℚ
  sources_processed : ℚ
  research_time_seconds : ℚ
  confidence_score : ℚ
  query_type : String
  sub_questions : List String
  deriving DecidableEq

/-- `interface ResearchResult` of the shared schema, fields in source
order. -/
structure ResearchResult where
  query : String
  answer : String
  research_metadata : ResearchMetadata
  sources : List ResearchSource
  follow_up_suggestions : List String
  deriving DecidableEq

/-! ## Route handler: validation and option defaulting

The `POST /api/research` handler destructures
`const (query, options = treated-as-empty-object) = req.body`, rejects with
status 400 unless `query` is a truthy string, and builds `researchOptions`
by `||`-defaulting each option field before spawning the Python subprocess. -/

/-- The `options` object of a request body; each property is a raw
JavaScript value, `JSValue.undefined` when the property is absent. -/
structure RequestOptions where
  depth : JSValue
  max_sources : JSValue
  include_contact_info : JSValue
  research_timeout : JSValue
  deriving DecidableEq

/-- The destructuring default `options = empty-object`: every property reads
as `undefined`. -/
def emptyOptions : RequestOptions :=
  ⟨.undefined, .undefined, .undefined, .undefined⟩

/-- The `options` property of a parsed JSON request body: absent
(`undefined`, which the destructuring default replaces with an empty
object), JSON `null` (on which the handler's first property access
`options.depth` throws a TypeError, landing in the catch block), or an
object. A primitive options value (number, string, boolean) is represented
as `obj emptyOptions`, since property access on a boxed primitive yields
`undefined` for every property, exactly like the empty object. -/
inductive OptionsValue where
  | undefined : OptionsValue
  | null : OptionsValue
  | obj : RequestOptions → OptionsValue
  deriving DecidableEq

/-- A parsed request body: the `query` property and the `options`
property. -/
structure RequestBody where
  query : JSValue
  options : OptionsValue
  deriving DecidableEq

/-- How the handler reads the options property: the destructuring default
for an absent property, the object itself otherwise, and `none` for JSON
`null`, where reading `options.depth` throws instead of producing
options. -/
def optionsObject : OptionsValue → Option RequestOptions
  | .undefined => some emptyOptions
  | .null => none
  | .obj o => some o

/-- The `researchOptions` object the handler builds and passes to the
subprocess. -/
structure ResolvedOptions where
  depth : JSValue
  max_sources : JSValue
  include_contact_info : JSValue
  research_timeout : JSValue
  deriving DecidableEq

/-- The option-defaulting block of the route handler:
`depth: options.depth || "standard"`, `max_sources: options.max_sources || 20`,
`include_contact_info: options.include_contact_info || false`,
`research_timeout: options.research_timeout || 300`. -/
def resolveOptions (opts : RequestOptions) : ResolvedOptions :=
  ⟨jsOr opts.depth (.string "standard"),
   jsOr opts.max_sources (.number 20),
   jsOr opts.include_contact_info (.boolean false),
   jsOr opts.research_timeout (.number 300)⟩

/-- Outcome of the synchronous part of the route handler: an immediate 400
rejection, an exception landing in the handler's catch block (carrying the
thrown error's message), or the spawn of the research subprocess with the
resolved options and the validated query. -/
inductive RouteOutcome where
  | rejected : Nat → String → RouteOutcome
  | caught : String → RouteOutcome
  | spawned : ResolvedOptions → String → RouteOutcome
  deriving DecidableEq

/-- The validation and spawn logic of the `POST /api/research` handler:
`if (not query or typeof query is not string) return 400`; then building
`researchOptions` throws for a `null` options property (caught by the
surrounding try/catch); otherwise the subprocess is spawned with the
`||`-defaulted options. -/
def handleResearch (b : RequestBody) : RouteOutcome :=
  if !truthy b.query || !isStringVal b.query then
    .rejected 400 "Query is required and must be a string"
  else
    match optionsObject b.options with
    | none => .caught "Cannot read properties of null (reading 'depth')"
    | some opts => .spawned (resolveOptions opts) (stringVal b.query)

/-! ## Route handler: subprocess lifecycle, responses and the timeout timer

After spawning, the handler registers a `close` listener that answers the
HTTP request from the subprocess's exit code and collected stdout/stderr,
and arms `setTimeout(kill and 408, research_timeout * 1000)`. A second
`close` listener clears the timer, so the timer only fires while the
subprocess is still running. -/

/-- The body of an HTTP response sent by the route: either the structured
error object `(error, optional details)` built by `res.json`, or a parsed
`ResearchResult` forwarded verbatim. -/
inductive ResponseBody where
  | errorBody : String → Option String → ResponseBody
  | resultBody : ResearchResult → ResponseBody
  deriving DecidableEq

/-- An HTTP response: status code plus JSON body. -/
structure HttpResponse where
  status : Nat
  body : ResponseBody
  deriving DecidableEq

/-- One run of the research subprocess: the wall-clock time (milliseconds
after spawn) at which it would close on its own, its natural exit code
(`none` models a `null` code from a signal), the result of `JSON.parse` on
its collected stdout (`Except.error` carries the parse error message), and
its collected stderr. -/
structure ProcRun where
  finishMs : ℚ
  exitCode : Option Int
  parsed : Except String ResearchResult
  stderr : String

/-- The `close` listener of the route handler: a non-zero (or `null`) exit
code answers 500 with `details: stderr or "Unknown error occurred"`;
exit code 0 forwards the parsed stdout as the success body, or answers 500
with the parse error message when `JSON.parse` throws. -/
def closeResponse (code : Option Int) (parsed : Except String ResearchResult)
    (stderr : String) : HttpResponse :=
  if code ≠ some 0 then
    ⟨500, .errorBody "Research process failed"
      (some (if stderr = "" then "Unknown error occurred" else stderr))⟩
  else
    match parsed with
    | .ok r => ⟨200, .resultBody r⟩
    | .error msg => ⟨500, .errorBody "Failed to parse research results" (some msg)⟩

/-- Whether the `setTimeout` timer kills the subprocess: the timer fires at
`timeoutSec * 1000` milliseconds and the second `close` listener clears it,
so the kill happens exactly when the subprocess has not closed before the
timer fires. -/
def processKilled (timeoutSec : ℚ) (run : ProcRun) : Bool :=
  decide (¬ run.finishMs < timeoutSec * 1000)

/-- The sequence of responses the handler attempts to send after spawning,
in order. If the subprocess closes before the timer fires, the timer is
cleared and only the `close` response is sent. Otherwise the timer kills
the subprocess and sends 408, and the `close` listener then still runs for
the killed subprocess (a `null` exit code) and attempts a second
response — nothing in the route guards against this. -/
def routeResponses (timeoutSec : ℚ) (run : ProcRun) : List HttpResponse :=
  if run.finishMs < timeoutSec * 1000 then
    [closeResponse run.exitCode run.parsed run.stderr]
  else
    [⟨408, .errorBody "Research request timed out" none⟩,
     closeResponse none run.parsed run.stderr]

/-- The response the caller actually receives: the first one written, since
any later write on an already-answered request fails at the HTTP layer. -/
def deliveredResponse (timeoutSec : ℚ) (run : ProcRun) : HttpResponse :=
  match routeResponses timeoutSec run with
  | [] => ⟨500, .errorBody "Internal server error" none⟩
  | r :: _ => r

/-- The full list of responses the `POST /api/research` handler attempts
for one request: the 400 rejection when validation fails, otherwise the
post-spawn responses determined by the subprocess run and the resolved
numeric timeout (in seconds). -/
def routeAllResponses (b : RequestBody) (timeoutSec : ℚ) (run : ProcRun) :
    List HttpResponse :=
  match handleResearch b with
  | .rejected s e => [⟨s, .errorBody e none⟩]
  | .caught msg => [⟨500, .errorBody "Internal server error" (some msg)⟩]
  | .spawned _ _ => routeResponses timeoutSec run

/-- The fixed `error` strings the route handler ever places in a failure
response, the catch block's included. -/
def fixedErrorMessages : List String :=
  ["Query is required and must be a string",
   "Research process failed",
   "Failed to parse research results",
   "Research request timed out",
   "Internal server error"]

/-! ## Result assembly (modelled from the spec)

The research pipeline itself runs in `server/research_runner.py`, which is
not under the sources given; only its spawner and the shared schema are. -/

/-- Inputs the Result Assembler packages into the final result. -/
structure AssemblyInput where
  query : String
  answer : String
  sources_searched : ℚ
  sources_processed : ℚ
  span_seconds : ℚ
  raw_confidence : ℚ
  query_type : String
  sub_questions : List String
  sources : List ResearchSource
  follow_up_suggestions : List String
  deriving DecidableEq

/-- Modelled from the spec: the Result Assembler of the Python pipeline
(`server/research_runner.py`, not under the given sources) packages answer,
metadata, sources and follow-up suggestions into the final `ResearchResult`,
computes `research_time_seconds` from the wall-clock span of the whole
pipeline, and computes a `confidence_score` lying in the unit interval. -/
def assembleResult (i : AssemblyInput) : ResearchResult :=
  { query := i.query
    answer := i.answer
    research_metadata :=
      { sources_searched := i.sources_searched
        sources_processed := i.sources_processed
        research_time_seconds := i.span_seconds
        confidence_score := max 0 (min 1 i.raw_confidence)
        query_type := i.query_type
        sub_questions := i.sub_questions }
    sources := i.sources
    follow_up_suggestions := i.follow_up_suggestions }

/-! ## Client-side `handleSubmit` (`client/src/pages/home.tsx`)

The form handler returns early on a whitespace-only query, otherwise sets
status `starting`, performs the fetch, and ends by setting `complete` on
success or `error` in the catch block. -/

/-- The code points JavaScript `String.prototype.trim` strips: the
ECMAScript WhiteSpace set (tab, vertical tab, form feed, space, no-break
space, zero-width no-break space and the Unicode space separators) and the
LineTerminator set (line feed, carriage return, line separator, paragraph
separator). -/
def jsWhitespaceCodes : List Nat :=
  [0x9, 0xa, 0xb, 0xc, 0xd, 0x20, 0xa0, 0x1680,
   0x2000, 0x2001, 0x2002, 0x2003, 0x2004, 0x2005, 0x2006, 0x2007,
   0x2008, 0x2009, 0x200a, 0x2028, 0x2029, 0x202f, 0x205f, 0x3000, 0xfeff]

/-- Whether JavaScript `trim` treats a character as whitespace. -/
def jsWhitespace (c : Char) : Bool :=
  jsWhitespaceCodes.contains c.toNat

/-- JavaScript `String.prototype.trim` as used by the form guard and the
submit button: strips leading and trailing ECMAScript whitespace,
Unicode whitespace included. -/
def jsTrim (s : String) : String :=
  ⟨((s.data.dropWhile jsWhitespace).reverse.dropWhile jsWhitespace).reverse⟩

/-- Whether `handleSubmit` proceeds past its guard
`if (not query.trim()) return`. -/
def clientSubmits (q : String) : Bool :=
  decide (jsTrim q ≠ "")

/-- Outcome of the client's `fetch` call as `handleSubmit` observes it:
a parsed `ResearchResult` on an OK response; a non-OK response whose JSON
body may carry an `error` string (`none` models an absent property); or a
thrown `Error` with its message. -/
inductive FetchOutcome where
  | success : ResearchResult → FetchOutcome
  | httpError : Option String → FetchOutcome
  | thrown : String → FetchOutcome
  deriving DecidableEq

/-- The message of the `Error` thrown for a non-OK response:
`errorData.error or "Research failed"`. -/
def httpErrorMessage (e : Option String) : String :=
  match e with
  | some m => if m = "" then "Research failed" else m
  | none => "Research failed"

/-- The sequence of `ResearchStatus` values `handleSubmit` sets for one
form submission, in order: nothing when the trimmed query is empty;
otherwise `starting`, then `complete` on success or `error` with the
caught message. -/
def handleSubmitStatuses (q : String) (o : FetchOutcome) : List ResearchStatus :=
  if jsTrim q = "" then []
  else
    ⟨.starting, "Initializing research...", none⟩ ::
    match o with
    | .success _ => [⟨.complete, "Research complete!", none⟩]
    | .httpError e => [⟨.error, httpErrorMessage e, none⟩]
    | .thrown m => [⟨.error, m, none⟩]

/-! ## Claims about request validation and option defaulting -/

/-- C1: a request whose query is missing, the empty string, or not a
string is rejected immediately with a 400 structured error and the
research subprocess is never spawned. -/
theorem invalidQueryRejected (b : RequestBody)
    (h : b.query = .undefined ∨ b.query = .string "" ∨ isStringVal b.query = false) :
    handleResearch b = .rejected 400 "Query is required and must be a string"
      ∧ ∀ ro q, handleResearch b ≠ .spawned ro q := by
  have hguard : (!truthy b.query || !isStringVal b.query) = true := by
    rcases h with h | h | h
    · rw [h]; rfl
    · rw [h]; rfl
    · simp [h]
  refine ⟨?_, ?_⟩
  · simp [handleResearch, hguard]
  · intro ro q
    simp [handleResearch, hguard]

theorem invalidQueryRejected_witness :
    handleResearch ⟨.undefined, .undefined⟩
        = .rejected 400 "Query is required and must be a string"
      ∧ ∀ ro q, handleResearch ⟨.undefined, .undefined⟩ ≠ .spawned ro q :=
  invalidQueryRejected ⟨.undefined, .undefined⟩ (Or.inl rfl)

/-- A request body whose options violate every constraint of the claimed
request shape: depth outside the enum, negative max_sources and
research_timeout. -/
def invalidOptionsBody : RequestBody :=
  ⟨.string "what is x",
   .obj ⟨.string "bogus", .number (-5), .boolean true, .number (-7)⟩⟩

/-- C2 counterexample: a request with depth outside the enum and negative
max_sources and research_timeout is accepted anyway — the handler spawns
the pipeline and passes the invalid option values through unvalidated. -/
theorem invalidOptionsAccepted :
    handleResearch invalidOptionsBody
      = .spawned ⟨.string "bogus", .number (-5), .boolean true, .number (-7)⟩
          "what is x" := by
  decide

/-- C2 amended: every accepted request has a non-empty string query, but
options are never validated — each falsy option field is replaced by its
default and every truthy value, valid or not, is passed through, so the
resolved options are exactly the defaulted originals. -/
theorem acceptedRequestShape (b : RequestBody) (ro : ResolvedOptions) (q : String)
    (h : handleResearch b = .spawned ro q) :
    b.query = .string q ∧ q ≠ ""
      ∧ ∃ opts, optionsObject b.options = some opts ∧ ro = resolveOptions opts := by
  obtain ⟨v, o⟩ := b
  cases v with
  | undefined => simp [handleResearch, truthy, isStringVal] at h
  | null => simp [handleResearch, truthy, isStringVal] at h
  | boolean bv => simp [handleResearch, truthy, isStringVal] at h
  | number n => simp [handleResearch, truthy, isStringVal] at h
  | string s =>
    by_cases hs : s = ""
    · subst hs
      simp [handleResearch, truthy, isStringVal] at h
    · cases ho : optionsObject o with
      | none =>
        simp [handleResearch, truthy, isStringVal, hs, ho] at h
      | some opts =>
        have hrun : handleResearch ⟨JSValue.string s, o⟩
            = .spawned (resolveOptions opts) s := by
          simp [handleResearch, truthy, isStringVal, stringVal, hs, ho]
        rw [hrun] at h
        injection h with h1 h2
        exact ⟨by rw [h2], by rw [← h2]; exact hs, opts, rfl, h1.symm⟩

theorem acceptedRequestShape_witness :
    (RequestBody.mk (.string "hi") .undefined).query = .string "hi" ∧ "hi" ≠ ""
      ∧ ∃ opts, optionsObject (RequestBody.mk (.string "hi") .undefined).options
            = some opts
          ∧ resolveOptions emptyOptions = resolveOptions opts :=
  acceptedRequestShape ⟨.string "hi", .undefined⟩ (resolveOptions emptyOptions)
    "hi" (by decide)

/-- C9: when an options field is present but falsy (max_sources 0,
research_timeout 0, depth the empty string, include_contact_info false),
the handler still accepts the request and silently replaces each falsy
field with its default (standard, 20, false, 300) via the JavaScript
or-operator. -/
theorem falsyOptionsDefaulted (q : String) (o : RequestOptions) (hq : q ≠ "") :
    ∃ ro : ResolvedOptions,
      handleResearch ⟨.string q, .obj o⟩ = .spawned ro q
      ∧ (truthy o.depth = false → ro.depth = .string "standard")
      ∧ (truthy o.max_sources = false → ro.max_sources = .number 20)
      ∧ (truthy o.include_contact_info = false →
          ro.include_contact_info = .boolean false)
      ∧ (truthy o.research_timeout = false → ro.research_timeout = .number 300) := by
  refine ⟨resolveOptions o, ?_, ?_, ?_, ?_, ?_⟩
  · simp [handleResearch, truthy, isStringVal, stringVal, optionsObject, hq]
  · intro hf; simp [resolveOptions, jsOr, hf]
  · intro hf; simp [resolveOptions, jsOr, hf]
  · intro hf; simp [resolveOptions, jsOr, hf]
  · intro hf; simp [resolveOptions, jsOr, hf]

theorem falsyOptionsDefaulted_witness :
    ∃ ro : ResolvedOptions,
      handleResearch ⟨.string "q",
          .obj ⟨.string "", .number 0, .boolean false, .number 0⟩⟩
        = .spawned ro "q"
      ∧ (truthy (JSValue.string "") = false → ro.depth = .string "standard")
      ∧ (truthy (JSValue.number 0) = false → ro.max_sources = .number 20)
      ∧ (truthy (JSValue.boolean false) = false →
          ro.include_contact_info = .boolean false)
      ∧ (truthy (JSValue.number 0) = false → ro.research_timeout = .number 300) :=
  falsyOptionsDefaulted "q" ⟨.string "", .number 0, .boolean false, .number 0⟩
    (by decide)

/-- C10 counterexample: the non-empty (whitespace-only) query with a JSON
`null` options property is not spawned — building the options throws and
the catch block answers instead — refuting the claim that every at-least-
one-character string query spawns the pipeline and that only
missing/empty/non-string queries fail. -/
theorem nullOptionsNotSpawned :
    handleResearch ⟨.string " ", .null⟩
        = .caught "Cannot read properties of null (reading 'depth')"
      ∧ (∀ ro q, handleResearch ⟨.string " ", .null⟩ ≠ .spawned ro q)
      ∧ routeAllResponses ⟨.string " ", .null⟩ 300 ⟨0, some 0, .error "", ""⟩
          = [⟨500, .errorBody "Internal server error"
              (some "Cannot read properties of null (reading 'depth')")⟩] := by
  refine ⟨rfl, ?_, rfl⟩
  intro ro q h
  have hc : RouteOutcome.caught "Cannot read properties of null (reading 'depth')"
      = .spawned ro q := h
  exact RouteOutcome.noConfusion hc

/-- C10 amended: every query string with at least one character —
whitespace-only included — passes the server-side validation, and spawns
the pipeline whenever the options property is not JSON null (a null
options throws before the spawn and is answered from the catch block); the
client-side form guard independently blocks submission of whitespace-only
queries via trim, setting no status and performing no fetch. -/
theorem whitespaceQueryAccepted (s : String) (o : OptionsValue)
    (h : s ≠ "") (ho : o ≠ .null) :
    (∃ opts, optionsObject o = some opts
        ∧ handleResearch ⟨.string s, o⟩ = .spawned (resolveOptions opts) s)
      ∧ (jsTrim s = "" →
          clientSubmits s = false ∧ ∀ fo, handleSubmitStatuses s fo = []) := by
  refine ⟨?_, ?_⟩
  · cases o with
    | null => exact absurd rfl ho
    | undefined =>
      exact ⟨emptyOptions, rfl,
        by simp [handleResearch, truthy, isStringVal, stringVal, optionsObject, h]⟩
    | obj opts =>
      exact ⟨opts, rfl,
        by simp [handleResearch, truthy, isStringVal, stringVal, optionsObject, h]⟩
  · intro ht
    exact ⟨by simp [clientSubmits, ht], fun fo => by simp [handleSubmitStatuses, ht]⟩

theorem whitespaceQueryAccepted_witness :
    (∃ opts, optionsObject .undefined = some opts
        ∧ handleResearch ⟨.string " ", .undefined⟩
            = .spawned (resolveOptions opts) " ")
      ∧ (jsTrim " " = "" →
          clientSubmits " " = false ∧ ∀ fo, handleSubmitStatuses " " fo = []) :=
  whitespaceQueryAccepted " " .undefined (by decide) (by decide)

/-! ## Claims about the overall timeout and the response sequence -/

/-- C3: when the subprocess run exceeds the configured research_timeout,
the timer kills the subprocess, the caller receives the 408 terminal error
response, and never any (partial) ResearchResult. -/
theorem timeoutCancelsRun (t : ℚ) (run : ProcRun)
    (h : t * 1000 ≤ run.finishMs) :
    processKilled t run = true
      ∧ deliveredResponse t run
          = ⟨408, .errorBody "Research request timed out" none⟩
      ∧ ∀ res : ResearchResult,
          (deliveredResponse t run).body ≠ .resultBody res := by
  have hnl : ¬ run.finishMs < t * 1000 := not_lt.mpr h
  refine ⟨by simp [processKilled, hnl], ?_, ?_⟩
  · simp [deliveredResponse, routeResponses, hnl]
  · intro res
    simp [deliveredResponse, routeResponses, hnl]

theorem timeoutCancelsRun_witness :
    processKilled 120 (ProcRun.mk 200000 (some 0) (.error "no output") "") = true
      ∧ deliveredResponse 120 (ProcRun.mk 200000 (some 0) (.error "no output") "")
          = ⟨408, .errorBody "Research request timed out" none⟩
      ∧ ∀ res : ResearchResult,
          (deliveredResponse 120
            (ProcRun.mk 200000 (some 0) (.error "no output") "")).body
            ≠ .resultBody res :=
  timeoutCancelsRun 120 ⟨200000, some 0, .error "no output", ""⟩ (by norm_num)

/-- C8: when the timer fires, the handler first sends the 408 response,
and the killed subprocess's close listener (null exit code) still attempts
a second, 500 response on the same already-answered request — nothing in
the route guards against responding twice after a timeout. -/
theorem doubleResponseAfterTimeout (t : ℚ) (run : ProcRun)
    (h : t * 1000 ≤ run.finishMs) :
    routeResponses t run
        = [⟨408, .errorBody "Research request timed out" none⟩,
           closeResponse none run.parsed run.stderr]
      ∧ (routeResponses t run).length = 2
      ∧ (closeResponse none run.parsed run.stderr).status = 500 := by
  have hnl : ¬ run.finishMs < t * 1000 := not_lt.mpr h
  refine ⟨by simp [routeResponses, hnl], by simp [routeResponses, hnl], ?_⟩
  simp [closeResponse]

theorem doubleResponseAfterTimeout_witness :
    routeResponses 60 (ProcRun.mk 90000 (some 0) (.error "cut short") "boom")
        = [⟨408, .errorBody "Research request timed out" none⟩,
           closeResponse none (.error "cut short") "boom"]
      ∧ (routeResponses 60 (ProcRun.mk 90000 (some 0) (.error "cut short") "boom")).length = 2
      ∧ (closeResponse none (.error "cut short") "boom").status = 500 :=
  doubleResponseAfterTimeout 60 ⟨90000, some 0, .error "cut short", "boom"⟩
    (by norm_num)

/-- C7: a ResearchResult actually delivered to the caller — assembled by
the pipeline with research_time_seconds equal to the wall-clock span, which
fits within the subprocess lifetime — reports a research_time_seconds
between 0 and the configured research_timeout, because a run that reaches
the timeout is killed and answered with 408 instead. -/
theorem researchTimeBounded (t : ℚ) (run : ProcRun) (i : AssemblyInput)
    (res : ResearchResult)
    (h0 : 0 ≤ i.span_seconds)
    (hspan : i.span_seconds * 1000 ≤ run.finishMs)
    (hparsed : run.parsed = .ok (assembleResult i))
    (hres : (deliveredResponse t run).body = .resultBody res) :
    0 ≤ res.research_metadata.research_time_seconds
      ∧ res.research_metadata.research_time_seconds ≤ t := by
  by_cases hlt : run.finishMs < t * 1000
  · have hd : deliveredResponse t run
        = closeResponse run.exitCode run.parsed run.stderr := by
      simp [deliveredResponse, routeResponses, hlt]
    rw [hd] at hres
    unfold closeResponse at hres
    by_cases hc : run.exitCode ≠ some 0
    · rw [if_pos hc] at hres
      simp at hres
    · rw [if_neg hc, hparsed] at hres
      simp at hres
      have hr : res.research_metadata.research_time_seconds = i.span_seconds := by
        rw [← hres]
        rfl
      constructor
      · rw [hr]; exact h0
      · rw [hr]
        have hlt2 : i.span_seconds * 1000 < t * 1000 := lt_of_le_of_lt hspan hlt
        have h1000 : (0 : ℚ) < 1000 := by norm_num
        exact le_of_lt ((mul_lt_mul_right h1000).mp hlt2)
  · have hd : deliveredResponse t run
        = ⟨408, .errorBody "Research request timed out" none⟩ := by
      simp [deliveredResponse, routeResponses, hlt]
    rw [hd] at hres
    simp at hres

/-- Concrete assembly input for the C7 witness: a two-second pipeline
span. -/
def sampleAssembly : AssemblyInput :=
  ⟨"what is x", "x is y", 5, 3, 2, 1 / 2, "factual", ["sub"], [], []⟩

/-- Concrete subprocess run for the C7 witness: closes after one minute
with the assembled sample result on stdout. -/
def sampleRun : ProcRun :=
  ⟨60000, some 0, .ok (assembleResult sampleAssembly), ""⟩

theorem researchTimeBounded_witness :
    0 ≤ (assembleResult sampleAssembly).research_metadata.research_time_seconds
      ∧ (assembleResult sampleAssembly).research_metadata.research_time_seconds
          ≤ 120 :=
  researchTimeBounded 120 sampleRun sampleAssembly (assembleResult sampleAssembly)
    (by norm_num [sampleAssembly]) (by norm_num [sampleAssembly, sampleRun]) rfl
    (by norm_num [deliveredResponse, routeResponses, closeResponse, sampleRun])

/-! ## Claims about the shape of failure responses -/

/-- Every 400 rejection of the handler carries the one fixed validation
message. -/
theorem handleResearch_rejected (b : RequestBody) (s : Nat) (e : String)
    (h : handleResearch b = .rejected s e) :
    s = 400 ∧ e = "Query is required and must be a string" := by
  unfold handleResearch at h
  split at h
  · injection h with h1 h2
    exact ⟨h1.symm, h2.symm⟩
  · cases ho : optionsObject b.options with
    | none => rw [ho] at h; simp at h
    | some opts => rw [ho] at h; simp at h

/-- Every non-200 response of the close listener is a structured error
with one of the two fixed close-listener messages. -/
theorem closeResponse_failure (code : Option Int)
    (p : Except String ResearchResult) (err : String)
    (hfail : (closeResponse code p err).status ≠ 200) :
    ∃ e d, (closeResponse code p err).body = .errorBody e d
      ∧ e ∈ ["Research process failed", "Failed to parse research results"] := by
  unfold closeResponse at hfail ⊢
  by_cases hc : code ≠ some 0
  · rw [if_pos hc]
    exact ⟨_, _, rfl, by simp⟩
  · rw [if_neg hc] at hfail ⊢
    cases p with
    | ok res => simp at hfail
    | error m => exact ⟨_, _, rfl, by simp⟩

/-- C4 amended: every failure (non-200) response the endpoint attempts is
a structured JSON error whose error field is one of five fixed
human-readable messages; there is no separate machine-readable kind field,
and (per the counterexample) the 500 responses forward raw subprocess
stderr or exception text in a separate details field. -/
theorem failureResponsesStructured (b : RequestBody) (t : ℚ) (run : ProcRun)
    (r : HttpResponse) (hr : r ∈ routeAllResponses b t run)
    (hfail : r.status ≠ 200) :
    ∃ e d, r.body = .errorBody e d ∧ e ∈ fixedErrorMessages := by
  cases hh : handleResearch b with
  | rejected s e =>
    simp only [routeAllResponses, hh, List.mem_singleton] at hr
    obtain ⟨hs, he⟩ := handleResearch_rejected b s e hh
    subst hr
    refine ⟨e, none, rfl, ?_⟩
    rw [he]
    simp [fixedErrorMessages]
  | caught msg =>
    simp only [routeAllResponses, hh, List.mem_singleton] at hr
    subst hr
    exact ⟨"Internal server error", some msg, rfl, by simp [fixedErrorMessages]⟩
  | spawned ro q =>
    simp only [routeAllResponses, hh] at hr
    by_cases hlt : run.finishMs < t * 1000
    · unfold routeResponses at hr
      rw [if_pos hlt, List.mem_singleton] at hr
      subst hr
      obtain ⟨e, d, hb, he⟩ :=
        closeResponse_failure run.exitCode run.parsed run.stderr hfail
      refine ⟨e, d, hb, ?_⟩
      simp only [List.mem_cons, List.not_mem_nil, or_false] at he
      rcases he with he | he <;> rw [he] <;> simp [fixedErrorMessages]
    · unfold routeResponses at hr
      rw [if_neg hlt] at hr
      simp only [List.mem_cons, List.not_mem_nil, or_false] at hr
      rcases hr with hr | hr
      · subst hr
        exact ⟨"Research request timed out", none, rfl,
          by simp [fixedErrorMessages]⟩
      · subst hr
        obtain ⟨e, d, hb, he⟩ :=
          closeResponse_failure none run.parsed run.stderr hfail
        refine ⟨e, d, hb, ?_⟩
        simp only [List.mem_cons, List.not_mem_nil, or_false] at he
        rcases he with he | he <;> rw [he] <;> simp [fixedErrorMessages]

theorem failureResponsesStructured_witness :
    ∃ e d, (HttpResponse.mk 400
        (.errorBody "Query is required and must be a string" none)).body
          = .errorBody e d
      ∧ e ∈ fixedErrorMessages :=
  failureResponsesStructured ⟨.undefined, .undefined⟩ 1 ⟨0, none, .error "x", ""⟩
    ⟨400, .errorBody "Query is required and must be a string" none⟩
    (by decide) (by decide)

/-- Stderr of a failing subprocess run: a raw Python stack trace. -/
def pythonTraceback : String :=
  "Traceback (most recent call last):\n  File research_runner.py, line 12, in <module>\nKeyError: SEARX_URL"

/-- C4 counterexample: when the subprocess exits with code 1 and a raw
Python stack trace on stderr, the hard-failure response forwards that
stack trace verbatim inside its details field, contradicting the claim
that hard-failure messages carry no raw stack traces. -/
theorem stackTraceInFailureResponse :
    closeResponse (some 1) (.error "no output") pythonTraceback
        = ⟨500, .errorBody "Research process failed" (some pythonTraceback)⟩
      ∧ pythonTraceback.data.take 9 = "Traceback".data := ⟨rfl, by decide⟩

/-! ## Claims about progress statuses and the result shape -/

/-- C5: every status value set for a submitted request carries a tag from
the eight-value schema union (which has exactly eight distinct values) and
any present progress number lies in 0..100, and the last status set is
always complete or error. -/
theorem statusLifecycle (q : String) (o : FetchOutcome) (h : jsTrim q ≠ "") :
    (∀ st ∈ handleSubmitStatuses q o,
        st.status ∈ statusTags ∧ ∀ p ∈ st.progress, 0 ≤ p ∧ p ≤ 100)
      ∧ statusTags.Nodup
      ∧ (∀ tag : StatusTag, tag ∈ statusTags)
      ∧ statusTags.length = 8
      ∧ ∃ last, (handleSubmitStatuses q o).getLast? = some last
          ∧ (last.status = .complete ∨ last.status = .error) := by
  refine ⟨?_, by decide, ?_, by decide, ?_⟩
  · intro st hst
    unfold handleSubmitStatuses at hst
    rw [if_neg h] at hst
    cases o <;> simp only [List.mem_cons, List.not_mem_nil, or_false] at hst <;>
      rcases hst with hst | hst <;> subst hst <;>
      exact ⟨by simp [statusTags], by simp⟩
  · intro tag
    cases tag <;> simp [statusTags]
  · unfold handleSubmitStatuses
    rw [if_neg h]
    cases o with
    | success r =>
      exact ⟨⟨.complete, "Research complete!", none⟩, rfl, Or.inl rfl⟩
    | httpError e =>
      exact ⟨⟨.error, httpErrorMessage e, none⟩, rfl, Or.inr rfl⟩
    | thrown m =>
      exact ⟨⟨.error, m, none⟩, rfl, Or.inr rfl⟩

theorem statusLifecycle_witness :
    (∀ st ∈ handleSubmitStatuses "capital of France" (.thrown "boom"),
        st.status ∈ statusTags ∧ ∀ p ∈ st.progress, 0 ≤ p ∧ p ≤ 100)
      ∧ statusTags.Nodup
      ∧ (∀ tag : StatusTag, tag ∈ statusTags)
      ∧ statusTags.length = 8
      ∧ ∃ last,
          (handleSubmitStatuses "capital of France" (.thrown "boom")).getLast?
            = some last
          ∧ (last.status = .complete ∨ last.status = .error) :=
  statusLifecycle "capital of France" (.thrown "boom") (by decide)

/-- C6: a ResearchResult consists exactly of the five schema fields, its
metadata exactly of the six schema fields, each source of the schema's
projection fields, and the assembled result carries the assembler's inputs
verbatim with a confidence_score in the unit interval. -/
theorem resultShape :
    (∀ r : ResearchResult,
        r = ⟨r.query, r.answer, r.research_metadata, r.sources,
             r.follow_up_suggestions⟩)
      ∧ (∀ m : ResearchMetadata,
        m = ⟨m.sources_searched, m.sources_processed, m.research_time_seconds,
             m.confidence_score, m.query_type, m.sub_questions⟩)
      ∧ (∀ s : ResearchSource,
        s = ⟨s.title, s.url, s.relevance_score, s.key_findings, s.domain,
             s.last_updated, s.content_length, s.quality_score⟩)
      ∧ ∀ i : AssemblyInput,
          (assembleResult i).query = i.query
          ∧ (assembleResult i).answer = i.answer
          ∧ (assembleResult i).sources = i.sources
          ∧ (assembleResult i).follow_up_suggestions = i.follow_up_suggestions
          ∧ (assembleResult i).research_metadata.sources_searched
              = i.sources_searched
          ∧ (assembleResult i).research_metadata.sources_processed
              = i.sources_processed
          ∧ (assembleResult i).research_metadata.research_time_seconds
              = i.span_seconds
          ∧ (assembleResult i).research_metadata.query_type = i.query_type
          ∧ (assembleResult i).research_metadata.sub_questions = i.sub_questions
          ∧ 0 ≤ (assembleResult i).research_metadata.confidence_score
          ∧ (assembleResult i).research_metadata.confidence_score ≤ 1 := by
  refine ⟨fun r => by cases r; rfl, fun m => by cases m; rfl,
    fun s => by cases s; rfl, fun i => ?_⟩
  refine ⟨rfl, rfl, rfl, rfl, rfl, rfl, rfl, rfl, rfl, ?_, ?_⟩
  · exact le_max_left 0 _
  · exact max_le (by norm_num) (min_le_left 1 _)

end ClarityDesk
